import Mathlib

/- Verification development for the yeelib_rs library.
   The definitions below are a shallow embedding of the Rust sources
   (src/lib.rs, src/light.rs, src/fields.rs, src/req.rs, src/err.rs).
   External collaborators (the Rust standard library's integer
   formatting/parsing, socket-address parsing, the regex engine, and the
   socket APIs) are modelled by executable Lean functions that follow their
   documented behavior on the inputs this library feeds them.
   Machine integers (u8, u16, u32, u64) are represented as Nat; operations
   that can overflow carry an explicit bound or modulus. -/

set_option autoImplicit false

namespace Yee

/-! ## Decimal formatting and parsing (model of Rust's integer Display / FromStr) -/

/-- The ASCII character of a decimal digit. -/
def digitChar (d : Nat) : Char := Char.ofNat (48 + d)

/-- Fuel-indexed decimal rendering, most significant digit first.
    Called with fuel larger than the digit count. -/
def natReprAux : Nat → Nat → List Char
  | 0, _ => []
  | fuel + 1, n =>
    if n < 10 then [digitChar n]
    else natReprAux fuel (n / 10) ++ [digitChar (n % 10)]

/-- Model of Rust's `Display` for unsigned integers: decimal digits, no sign,
    no leading zeros. -/
def natRepr (n : Nat) : String := ⟨natReprAux (n + 1) n⟩

/-- Strips one leading ASCII plus sign, as Rust's unsigned `FromStr` accepts. -/
def stripPlus (cs : List Char) : List Char :=
  match cs with
  | c :: rest => if c = '+' then rest else cs
  | [] => []

/-- Digit-string evaluation: fails on an empty string or any non-digit. -/
def parseDecCore (cs : List Char) : Option Nat :=
  if cs.isEmpty || !(cs.all Char.isDigit) then none
  else some (cs.foldl (fun a c => a * 10 + (c.toNat - 48)) 0)

/-- Model of Rust's `str::parse::<uN>()`: optional leading plus, decimal
    digits, value below `bound` (the overflow check of the machine type). -/
def parseUInt (s : String) (bound : Nat) : Option Nat :=
  match parseDecCore (stripPlus s.data) with
  | some v => if v < bound then some v else none
  | none => none

/-! ## Substring search (model of `str::contains` and the literal prefix of
     the regex `yeelight://(.*)`) -/

/-- The suffix of `s` after the first occurrence of `pat`, if `pat` occurs. -/
def afterFirst (pat : List Char) : List Char → Option (List Char)
  | [] => if pat = [] then some [] else none
  | c :: rest =>
    if pat.isPrefixOf (c :: rest) then some ((c :: rest).drop pat.length)
    else afterFirst pat rest

/-- Model of Rust's `str::contains` with a literal pattern. -/
def containsSub (pat s : List Char) : Bool := (afterFirst pat s).isSome

/-! ## Splitting helpers (models of `str::split` / `split_whitespace`) -/

/-- Split on a single separator character, keeping empty groups. -/
def splitOnChar (sep : Char) : List Char → List (List Char)
  | [] => [[]]
  | c :: rest =>
    let r := splitOnChar sep rest
    if c = sep then [] :: r
    else
      match r with
      | g :: gs => (c :: g) :: gs
      | [] => [[c]]

/-- Split on the two-character separator `::`, keeping empty groups
    (model of `str::split` with pattern "::", used for IPv6 literals). -/
def splitDColon : List Char → List (List Char)
  | [] => [[]]
  | ':' :: ':' :: rest => [] :: splitDColon rest
  | c :: rest =>
    match splitDColon rest with
    | g :: gs => (c :: g) :: gs
    | [] => [[c]]

/-- Groups of non-whitespace characters, in order (empty groups dropped);
    model of Rust's `str::split_whitespace`. -/
def splitWhitespaceL (cs : List Char) : List (List Char) :=
  (splitOnChar ' ' ((cs.map (fun c => if c.isWhitespace then ' ' else c)))).filter
    (fun g => !g.isEmpty)

/-- Model of Rust's `str::trim`. -/
def trimL (cs : List Char) : List Char :=
  ((cs.dropWhile Char.isWhitespace).reverse.dropWhile Char.isWhitespace).reverse

/-! ## Socket addresses (model of `std::net::SocketAddr` parsing) -/

/-- An IPv4 socket address: four octets and a port. -/
structure SockAddrV4 where
  a : Nat
  b : Nat
  c : Nat
  d : Nat
  port : Nat
  deriving DecidableEq

/-- A parsed socket address, IPv4 or IPv6 (the IPv6 host is kept as raw text;
    the library only ever matches on the variant). -/
inductive SockAddr where
  | v4 (addr : SockAddrV4)
  | v6 (host : String) (port : Nat)
  deriving DecidableEq

/-- One dotted-quad component: one to three digits, no extra leading zero,
    value at most 255. -/
def parseOctet (cs : List Char) : Option Nat :=
  if cs.isEmpty || !(cs.all Char.isDigit) then none
  else if 3 < cs.length then none
  else if 1 < cs.length && cs.head? = some '0' then none
  else
    let v := cs.foldl (fun a c => a * 10 + (c.toNat - 48)) 0
    if v ≤ 255 then some v else none

/-- A port: decimal digits with value at most 65535. -/
def parsePort (cs : List Char) : Option Nat :=
  match parseDecCore cs with
  | some v => if v ≤ 65535 then some v else none
  | none => none

/-- `HOST:PORT` with a dotted-quad IPv4 host. -/
def parseV4 (cs : List Char) : Option SockAddrV4 :=
  match splitOnChar ':' cs with
  | [host, port] =>
    match splitOnChar '.' host with
    | [x, y, z, w] =>
      match parseOctet x, parseOctet y, parseOctet z, parseOctet w, parsePort port with
      | some a, some b, some c, some d, some p => some ⟨a, b, c, d, p⟩
      | _, _, _, _, _ => none
    | _ => none
  | _ => none

/-- A hexadecimal digit. -/
def isHexDigitC (c : Char) : Bool :=
  c.isDigit || (97 ≤ c.toNat && c.toNat ≤ 102) || (65 ≤ c.toNat && c.toNat ≤ 70)

/-- One IPv6 group: one to four hex digits. -/
def hexGroup (cs : List Char) : Bool :=
  !cs.isEmpty && cs.length ≤ 4 && cs.all isHexDigitC

/-- Counts the colon-separated groups of one side of a `::`, failing on a bad
    group; the empty side contributes zero groups. -/
def groupCount (cs : List Char) : Option Nat :=
  if cs.isEmpty then some 0
  else
    let gs := splitOnChar ':' cs
    if gs.all hexGroup then some gs.length else none

/-- A textual IPv6 address: eight hex groups, or at most seven around one
    `::` abbreviation. -/
def isIPv6 (cs : List Char) : Bool :=
  match splitDColon cs with
  | [one] => groupCount one = some 8
  | [l, r] =>
    match groupCount l, groupCount r with
    | some x, some y => x + y ≤ 7
    | _, _ => false
  | _ => false

/-- `[HOST]:PORT` with an IPv6 host. -/
def parseV6 (cs : List Char) : Option (String × Nat) :=
  match cs with
  | '[' :: rest =>
    let inner := rest.takeWhile (fun c => c ≠ ']')
    match rest.drop inner.length with
    | ']' :: ':' :: portCs =>
      if isIPv6 inner then
        match parsePort portCs with
        | some p => some (⟨inner⟩, p)
        | none => none
      else none
    | _ => none
  | _ => none

/-- Model of `"…".parse::<SocketAddr>()`: IPv4 form first, then IPv6. -/
def parseSocketAddr (s : String) : Option SockAddr :=
  match parseV4 s.data with
  | some a => some (.v4 a)
  | none =>
    match parseV6 s.data with
    | some (h, p) => some (.v6 h p)
    | none => none

/-! ## Error taxonomy (src/err.rs).
     `ParseFieldFailed`'s optional `ParseIntError` cause is an opaque
     foreign payload and is elided. -/

inductive YeeError where
  | parseFieldFailed (field_name : String)
  | fieldNotFound (field_name : String)
  | ioError
  | methodNotSupported (method_name : String)
  | invalidValue (field_name : String) (value : String)
  | changeFailed (message : String)
  deriving DecidableEq

/-! ## Field types (src/fields.rs) -/

inductive PowerStatus where
  | On
  | Off
  deriving DecidableEq

namespace PowerStatus

def flip : PowerStatus → PowerStatus
  | .Off => .On
  | .On => .Off

/-- The `Display` rendering (`"on"` / `"off"`). -/
def render : PowerStatus → String
  | .Off => "off"
  | .On => "on"

def from_str (s : String) : Except YeeError PowerStatus :=
  if s = "on" then .ok .On
  else if s = "off" then .ok .Off
  else .error (.parseFieldFailed "power_status")

end PowerStatus

inductive ColorMode where
  | Color
  | ColorTemperature
  | Hsv
  deriving DecidableEq

namespace ColorMode

def from_str (s : String) : Except YeeError ColorMode :=
  if s = "1" then .ok .Color
  else if s = "2" then .ok .ColorTemperature
  else if s = "3" then .ok .Hsv
  else .error (.parseFieldFailed "color_mode")

end ColorMode

/-- Field order mirrors the Rust struct declaration (red, blue, green). -/
structure Rgb where
  red : Nat
  blue : Nat
  green : Nat
  deriving DecidableEq

namespace Rgb

def HEX_FFFFFF : Nat := 16777215

def empty : Rgb := { red := 0, blue := 0, green := 0 }

def new (red green blue : Nat) : Rgb := { red, green, blue }

def get_num (c : Rgb) : Nat := c.red * 65536 + c.green * 256 + c.blue

def from_str (s : String) : Except YeeError Rgb :=
  match parseUInt s 4294967296 with
  | none => .error (.parseFieldFailed "rgb")
  | some val =>
    if !(val ≤ HEX_FFFFFF) then .error (.parseFieldFailed "rgb")
    else
      let blue := val % 256
      let green := ((val - blue) / 256) % 256
      -- the final `as u8` cast is the modulus
      let red := (((val - blue) / 256 - green) / 256) % 256
      .ok { red, green, blue }

end Rgb

/-! ## Request envelope and transitions (src/req.rs) -/

/-- Model of `std::time::Duration`: whole seconds plus a sub-second
    nanosecond part (well-formed when `nanos < 10^9` and `secs < 2^64`). -/
structure Duration where
  secs : Nat
  nanos : Nat
  deriving DecidableEq

namespace Duration

/-- The derived lexicographic order on (secs, nanos). -/
def ltb (x y : Duration) : Bool :=
  x.secs < y.secs || (x.secs = y.secs && x.nanos < y.nanos)

def from_millis (ms : Nat) : Duration := ⟨ms / 1000, (ms % 1000) * 1000000⟩

def as_millis (d : Duration) : Nat := d.secs * 1000 + d.nanos / 1000000

def wf (d : Duration) : Prop := d.nanos < 1000000000

end Duration

def U64_MAX : Nat := 18446744073709551615

inductive Transition where
  | Sudden
  | Smooth (duration : Duration)
  deriving DecidableEq

namespace Transition

def sudden : Transition := .Sudden

def smooth (duration : Duration) : Option Transition :=
  if Duration.ltb duration (Duration.from_millis 30)
      || U64_MAX < duration.as_millis then none
  else some (.Smooth duration)

def text : Transition → String
  | .Sudden => "sudden"
  | .Smooth _ => "smooth"

/-- The wire duration; the `as u64` cast of `as_millis` is a modulus. -/
def value : Transition → Nat
  | .Sudden => 0
  | .Smooth duration => duration.as_millis % 18446744073709551616

end Transition

/-- A JSON parameter value as produced by the `json!` calls in src/light.rs. -/
inductive JVal where
  | num (n : Nat)
  | str (s : String)
  deriving DecidableEq

/-- The JSON-RPC request envelope. The random id drawn by `Req::new` is an
    external input and is passed in explicitly by every command below. -/
structure Req where
  id : Nat
  method : String
  params : List JVal
  deriving DecidableEq

/-! ## Device record and session (src/light.rs) -/

/-- The scripted behavior of one command exchange on an open TCP session.
    `ioErr` means some write/flush/read call failed; `reply buf` is the
    accumulated line buffer at the moment the correlation-id loop of
    `send_req` exits (the read-until-id loop itself is external I/O). -/
inductive Session where
  | ioErr
  | reply (buf : String)
  deriving DecidableEq

/-- The device record. `session` models the `read`/`write` option pair of the
    Rust struct (both are set together by `init` and are `None` after
    `from_fields`). -/
structure Light where
  location : SockAddrV4
  id : String
  model : String
  fw_ver : Nat
  support : List String
  power : PowerStatus
  bright : Nat
  color_mode : ColorMode
  ct : Nat
  rgb : Rgb
  hue : Nat
  sat : Nat
  name : String
  session : Option Session
  deriving DecidableEq

/-- A header map (the projection of an advertisement's headers). -/
def HeaderMap := List (String × String)

/-- Lookup in a header map (model of `HashMap::get`). -/
def hget : HeaderMap → String → Option String
  | [], _ => none
  | (k', v) :: rest, k => if k' = k then some v else hget rest k

/-- Removal of one header (model of `HashMap::remove` for the claims that
    delete a header from a well-formed map). -/
def herase : HeaderMap → String → HeaderMap
  | [], _ => []
  | (k', v) :: rest, k =>
    if k' = k then herase rest k else (k', v) :: herase rest k

/-- `stringify!` applied to a string-literal token keeps the quotes, so the
    field names carried by `get_field!` errors are the quoted source text. -/
def stringifyLit (f : String) : String := "\"" ++ f ++ "\""

/-- `get_field!` arm for plain strings. -/
def getFieldStr (m : HeaderMap) (f : String) : Except YeeError String :=
  match hget m f with
  | some s => .ok s
  | none => .error (.fieldNotFound (stringifyLit f))

/-- `get_field!` arm for primitive integers: `bound` is the exclusive upper
    bound of the machine type (`2^8` or `2^16`); a failed or overflowing
    parse is a `ParseFieldFailed` naming the (stringified) field. -/
def getFieldNum (m : HeaderMap) (f : String) (bound : Nat) : Except YeeError Nat :=
  match hget m f with
  | none => .error (.fieldNotFound (stringifyLit f))
  | some s =>
    match parseUInt s bound with
    | some v => .ok v
    | none => .error (.parseFieldFailed (stringifyLit f))

/-- `get_field!` arm for custom `FromStr` types: the parse error of the field
    type is returned as-is. -/
def getFieldVia {α : Type} (m : HeaderMap) (f : String)
    (p : String → Except YeeError α) : Except YeeError α :=
  match hget m f with
  | none => .error (.fieldNotFound (stringifyLit f))
  | some s => p s

/-- All fields of `Light::from_fields` up to and including the parse of the
    `Location` capture as a socket address, before the IPv4-only match. -/
structure Parsed where
  id : String
  model : String
  fw_ver : Nat
  power : PowerStatus
  support : List String
  bright : Nat
  color_mode : ColorMode
  ct : Nat
  rgb : Rgb
  hue : Nat
  sat : Nat
  name : String
  addr : SockAddr
  deriving DecidableEq

/-- The literal prefix of the regex `yeelight://(.*)`. -/
def yeePat : List Char := "yeelight://".data

/-- The capture of `yeelight://(.*)` on a header value: everything after the
    first occurrence of the literal prefix, up to the end of the line
    (`.` does not match a newline). -/
def locCapture (s : String) : Option String :=
  match afterFirst yeePat s.data with
  | some rest => some ⟨rest.takeWhile (fun c => c ≠ '\n')⟩
  | none => none

/-- The straight-line field extraction of `Light::from_fields`; each `?` in
    the source is one bind here. -/
def parseAdvert (m : HeaderMap) : Except YeeError Parsed :=
  Except.bind (getFieldStr m "id") fun id =>
  Except.bind (getFieldStr m "model") fun model =>
  Except.bind (getFieldNum m "fw_ver" 256) fun fw_ver =>
  Except.bind (getFieldVia m "power" PowerStatus.from_str) fun power =>
  Except.bind (getFieldStr m "support") fun supportRaw =>
  Except.bind (getFieldNum m "bright" 256) fun bright =>
  Except.bind (getFieldVia m "color_mode" ColorMode.from_str) fun color_mode =>
  Except.bind (getFieldNum m "ct" 65536) fun ct =>
  Except.bind (getFieldVia m "rgb" Rgb.from_str) fun rgb =>
  Except.bind (getFieldNum m "hue" 65536) fun hue =>
  Except.bind (getFieldNum m "sat" 256) fun sat =>
  Except.bind (getFieldStr m "name") fun name =>
  Except.bind (getFieldStr m "Location") fun location =>
  Except.bind (match locCapture location with
    | some cap => .ok cap
    | none => .error (.fieldNotFound "Location")) fun cap =>
  Except.bind (match parseSocketAddr cap with
    | some a => .ok a
    | none => .error (.parseFieldFailed "Location")) fun addr =>
  .ok { id, model, fw_ver, power,
        support := (splitWhitespaceL (trimL supportRaw.data)).map
          (fun g => (⟨g⟩ : String)),
        bright, color_mode, ct, rgb, hue, sat, name, addr }

/-- The result of running code that can panic. -/
inductive POut (α : Type) where
  | ret (a : α)
  | panicked
  deriving DecidableEq

/-- `Light::from_fields`: the extraction above, then the match that accepts
    only IPv4 and panics on an IPv6 address. -/
def from_fields (m : HeaderMap) : POut (Except YeeError Light) :=
  match parseAdvert m with
  | .error e => .ret (.error e)
  | .ok p =>
    match p.addr with
    | .v4 location =>
      .ret (.ok { location, id := p.id, model := p.model, fw_ver := p.fw_ver,
                  support := p.support, power := p.power, bright := p.bright,
                  color_mode := p.color_mode, ct := p.ct, rgb := p.rgb,
                  hue := p.hue, sat := p.sat, name := p.name, session := none })
    | .v6 _ _ => .panicked

/-! ## Command dispatch (src/light.rs) -/

/-- The pattern of the regex `"message":"(.*)"`. -/
def msgPat : List Char := "\"message\":\"".data

/-- The line prefix up to (excluding) the last occurrence of `c`. -/
def upToLast (c : Char) (cs : List Char) : Option (List Char) :=
  match cs.reverse.dropWhile (fun x => x ≠ c) with
  | [] => none
  | _ :: rest => some rest.reverse

/-- Leftmost match of `"message":"(.*)"`, whole-match text (capture 0, which
    is what `send_req` extracts): the pattern, then greedily everything up to
    the last quote on the same line. Fuel bounds the scan. -/
def errMsgScan : Nat → List Char → Option (List Char)
  | 0, _ => none
  | fuel + 1, cs =>
    match afterFirst msgPat cs with
    | none => none
    | some rest =>
      match upToLast '"' (rest.takeWhile (fun c => c ≠ '\n')) with
      | some content => some (msgPat ++ content ++ ['"'])
      | none => errMsgScan fuel rest

/-- The `ChangeFailed` message: the matched text, or empty when the regex
    does not match (`unwrap_or_else(String::new)`). -/
def errMsgCapture (buf : String) : String :=
  match errMsgScan buf.data.length buf.data with
  | some m => ⟨m⟩
  | none => ""

/-- Outcome of `Light::send_req`. -/
inductive SendOut where
  | ok
  | err (e : YeeError)
  | panicked
  deriving DecidableEq

/-- `Light::send_req`: unwraps the read/write halves (panicking when the
    session was never opened), performs the exchange, and classifies the
    reply buffer: a buffer containing `"error"` fails with `ChangeFailed`
    carrying the regex extraction, anything else succeeds. -/
def send_req (l : Light) (_req : Req) : SendOut :=
  match l.session with
  | none => .panicked
  | some .ioErr => .err .ioError
  | some (.reply buf) =>
    if containsSub "error".data buf.data then .err (.changeFailed (errMsgCapture buf))
    else .ok

/-- `check_support!`. -/
def check_support (l : Light) (method : String) : Except YeeError Unit :=
  if method ∈ l.support then .ok () else .error (.methodNotSupported method)

/-- Outcome of one command call on a `&mut Light`: the error case carries the
    (unchanged) record, the panic case returns nothing. -/
inductive CmdOut where
  | ok (l : Light)
  | err (e : YeeError) (l : Light)
  | panicked
  deriving DecidableEq

/-- A command's outcome plus whether `send_req` was entered (hence whether
    anything was written toward the session). -/
structure CmdResult where
  out : CmdOut
  dispatched : Bool
  deriving DecidableEq

/-- The shared tail of every command: `self.send_req(&req)?` followed by the
    shadow assignment and `Ok(())`. `upd` is `self` with the assignment
    applied; an error from `send_req` returns before any assignment. -/
def dispatch (l : Light) (req : Req) (upd : Light) : CmdResult :=
  match send_req l req with
  | .panicked => ⟨.panicked, true⟩
  | .err e => ⟨.err e l, true⟩
  | .ok => ⟨.ok upd, true⟩

/-- `Light::set_ct_abx`. -/
def set_ct_abx (l : Light) (reqId temperature : Nat) (transition : Transition) :
    CmdResult :=
  match check_support l "set_ct_abx" with
  | .error e => ⟨.err e l, false⟩
  | .ok () =>
    if !(2700 ≤ temperature && temperature ≤ 6500) then
      ⟨.err (.invalidValue "ct" (natRepr temperature)) l, false⟩
    else
      dispatch l ⟨reqId, "set_ct_abx",
          [.num temperature, .str transition.text, .num transition.value]⟩
        { l with ct := temperature }

/-- `Light::set_rgb`. -/
def set_rgb (l : Light) (reqId : Nat) (rgb : Rgb) (transition : Transition) :
    CmdResult :=
  match check_support l "set_rgb" with
  | .error e => ⟨.err e l, false⟩
  | .ok () =>
    dispatch l ⟨reqId, "set_rgb",
        [.num rgb.get_num, .str transition.text, .num transition.value]⟩
      { l with rgb := rgb }

/-- `Light::set_bright`. -/
def set_bright (l : Light) (reqId brightness : Nat) (transition : Transition) :
    CmdResult :=
  match check_support l "set_bright" with
  | .error e => ⟨.err e l, false⟩
  | .ok () =>
    if !(1 ≤ brightness && brightness ≤ 100) then
      ⟨.err (.invalidValue "bright" (natRepr brightness)) l, false⟩
    else
      dispatch l ⟨reqId, "set_bright",
          [.num brightness, .str transition.text, .num transition.value]⟩
        { l with bright := brightness }

/-- `Light::set_hsv`. The source invokes `check_support!` but discards its
    `Result` (the `?` is missing), so the support gate has no effect here. -/
def set_hsv (l : Light) (reqId hue sat : Nat) (transition : Transition) :
    CmdResult :=
  let _unused := check_support l "set_hsv"
  if !(hue ≤ 359) then ⟨.err (.invalidValue "hue" (natRepr hue)) l, false⟩
  else if !(sat ≤ 100) then ⟨.err (.invalidValue "sat" (natRepr sat)) l, false⟩
  else
    dispatch l ⟨reqId, "set_hsv",
        [.num hue, .num sat, .str transition.text, .num transition.value]⟩
      { l with hue := hue, sat := sat }

/-- `Light::set_power`. The source invokes `check_support!` but discards its
    `Result` (the `?` is missing), so the support gate has no effect here. -/
def set_power (l : Light) (reqId : Nat) (power : PowerStatus)
    (transition : Transition) : CmdResult :=
  let _unused := check_support l "set_power"
  dispatch l ⟨reqId, "set_power",
      [.str power.render, .str transition.text, .num transition.value]⟩
    { l with power := power }

/-- `Light::toggle`. -/
def toggle (l : Light) (reqId : Nat) : CmdResult :=
  match check_support l "toggle" with
  | .error e => ⟨.err e l, false⟩
  | .ok () =>
    dispatch l ⟨reqId, "toggle", []⟩ { l with power := l.power.flip }

/-- `Light::adjust_bright`: invokes `check_support!`, discards its `Result`,
    and returns `Ok(())` without touching the session or any field. -/
def adjust_bright (l : Light) : CmdResult :=
  let _unused := check_support l "adjust_bright"
  ⟨.ok l, false⟩

/-! ## Discovery (src/lib.rs, `YeeClient::find_lights`) -/

/-- One iteration's external input in the receive loop of `find_lights`:
    either `recv_from` failed (would-block or another I/O error), or a
    datagram arrived. `parsed` is the outcome of `httparse` projected to the
    header map (`none` when the bytes are not a parseable HTTP response);
    `initSession` is the outcome of the TCP connect performed by
    `Light::init` (`none` when the connect fails). -/
inductive RecvEvent where
  | recvErr
  | datagram (parsed : Option HeaderMap) (initSession : Option Session)

/-- The receive loop: events before the deadline, processed in order. -/
def findLoop : List RecvEvent → List Light → POut (List Light)
  | [], acc => .ret acc
  | .recvErr :: rest, acc => findLoop rest acc
  | .datagram parsed initSession :: rest, acc =>
    match parsed with
    | none => .panicked
    | some headers =>
      match from_fields headers with
      | .panicked => .panicked
      | .ret (.error _) => findLoop rest acc
      | .ret (.ok newLight) =>
        if acc.any (fun l => l.id = newLight.id) then findLoop rest acc
        else
          match initSession with
          | some s => findLoop rest (acc ++ [{ newLight with session := some s }])
          | none => findLoop rest acc

/-- `YeeClient::find_lights`: one multicast probe send whose result is
    unwrapped, then the bounded receive loop. `sendOk` is whether `send_to`
    succeeded; `events` are the receive-loop inputs before the timeout. -/
def find_lights (sendOk : Bool) (events : List RecvEvent) : POut (List Light) :=
  if sendOk then findLoop events [] else .panicked

/-! ## Concrete inputs used by the witnesses (the well-formed advertisement
     of the repository's own tests, src/light.rs `get_map`). -/

def goodMap : HeaderMap :=
  [("id", "0x1234"), ("model", "floor"), ("fw_ver", "40"), ("power", "on"),
   ("bright", "34"), ("color_mode", "2"), ("ct", "0"), ("rgb", "657930"),
   ("hue", "314"), ("sat", "12"), ("name", "room_light"),
   ("Location", "yeelight://127.0.0.1:13454"),
   ("support", "get_power set_power get_rgb set_rgb")]

/-- `goodMap` with an IPv6 `Location`. -/
def ipv6Map : HeaderMap :=
  [("id", "0x1234"), ("model", "floor"), ("fw_ver", "40"), ("power", "on"),
   ("bright", "34"), ("color_mode", "2"), ("ct", "0"), ("rgb", "657930"),
   ("hue", "314"), ("sat", "12"), ("name", "room_light"),
   ("Location", "yeelight://[::1]:8080"),
   ("support", "get_power set_power get_rgb set_rgb")]

/-- The record parsed from `goodMap`, with an attached scripted session. -/
def goodLight (support : List String) (session : Option Session) : Light :=
  { location := ⟨127, 0, 0, 1, 13454⟩, id := "0x1234", model := "floor",
    fw_ver := 40, support, power := .On, bright := 34,
    color_mode := .ColorTemperature, ct := 0,
    rgb := { red := 10, green := 10, blue := 10 }, hue := 314, sat := 12,
    name := "room_light", session }

/-- A reply buffer of a successful command exchange. -/
def okBuf : String := "\"id\":7, \"result\":[\"ok\"]"

end Yee

namespace Yee

/-! ## Helper lemmas -/

theorem dispatch_out_ok {l : Light} {req : Req} {upd l' : Light}
    (h : (dispatch l req upd).out = .ok l') : l' = upd := by
  unfold dispatch at h
  cases hs : send_req l req <;> rw [hs] at h <;> simp_all

theorem dispatch_out_err {l : Light} {req : Req} {upd : Light} {e : YeeError}
    {l' : Light} (h : (dispatch l req upd).out = .err e l') : l' = l := by
  unfold dispatch at h
  cases hs : send_req l req <;> rw [hs] at h <;> simp_all

theorem dispatch_dispatched (l : Light) (req : Req) (upd : Light) :
    (dispatch l req upd).dispatched = true := by
  unfold dispatch
  cases send_req l req <;> rfl

theorem dispatch_out_of_none {l : Light} (req : Req) (upd : Light)
    (h : l.session = none) : (dispatch l req upd).out = .panicked := by
  unfold dispatch send_req
  rw [h]

/-! ## C10 -/

/-- C10: `adjust_bright` returns success for every `Light`, regardless of the
    support set, writing nothing to the session and leaving every field of
    the record unchanged. -/
theorem adjust_bright_trivial (l : Light) :
    adjust_bright l = ⟨.ok l, false⟩ := rfl

/-! ## C2 -/

/-- C2: contrary to the claim, `find_lights` aborts by panicking both when
    the single multicast probe send fails (the `send_to` result is unwrapped)
    and when a received datagram fails to parse as an HTTP response (the
    `res.parse` result is unwrapped); neither failure is swallowed. A
    well-formed datagram, by contrast, yields a record with its session
    attached. -/
theorem find_lights_panics :
    (∀ events, find_lights false events = .panicked) ∧
    find_lights true [.datagram none none] = .panicked ∧
    find_lights true [.datagram (some goodMap) (some (.reply okBuf))] =
      .ret [goodLight ["get_power", "set_power", "get_rgb", "set_rgb"]
        (some (.reply okBuf))] :=
  ⟨fun _ => rfl, rfl, rfl⟩

/-! ## C1 -/

/-- C1: the support gate is broken for `set_hsv` and `set_power`; on a record
    whose support set is empty both commands still reach `send_req` (here
    against a session scripted to reply successfully) and return success with
    the shadow updated, instead of failing with `MethodNotSupported`. The
    other four commands gate correctly on the same record (shown for
    `toggle` and `set_ct_abx`). -/
theorem support_gate_bypassed :
    (goodLight [] (some (.reply okBuf))).support = [] ∧
    set_power (goodLight [] (some (.reply okBuf))) 7 .Off .Sudden =
      ⟨.ok { goodLight [] (some (.reply okBuf)) with power := .Off }, true⟩ ∧
    set_hsv (goodLight [] (some (.reply okBuf))) 7 10 10 .Sudden =
      ⟨.ok { goodLight [] (some (.reply okBuf)) with hue := 10, sat := 10 },
        true⟩ ∧
    toggle (goodLight [] (some (.reply okBuf))) 7 =
      ⟨.err (.methodNotSupported "toggle") (goodLight [] (some (.reply okBuf))),
        false⟩ ∧
    set_ct_abx (goodLight [] (some (.reply okBuf))) 7 3000 .Sudden =
      ⟨.err (.methodNotSupported "set_ct_abx")
        (goodLight [] (some (.reply okBuf))), false⟩ :=
  ⟨rfl, rfl, rfl, rfl, rfl⟩

/-! ## C3 -/

/-- C3 counterexample: on a header map whose `Location` capture parses
    (only) as an IPv6 socket address, `Light::from_fields` panics instead of
    returning a parse-failure error. -/
theorem ipv6_location_panics :
    locCapture "yeelight://[::1]:8080" = some "[::1]:8080" ∧
    parseSocketAddr "[::1]:8080" = some (.v6 "::1" 8080) ∧
    from_fields ipv6Map = .panicked :=
  ⟨rfl, rfl, rfl⟩

/-- C3 amended: whenever the straight-line field extraction succeeds and the
    `Location` capture parsed as an IPv6 socket address, `from_fields`
    panics (it neither succeeds nor returns an error). -/
theorem from_fields_v6_panics (m : HeaderMap) (p : Parsed) (host : String)
    (port : Nat) (hp : parseAdvert m = .ok p) (h6 : p.addr = .v6 host port) :
    from_fields m = .panicked := by
  unfold from_fields
  rw [hp]
  rcases p with ⟨_, _, _, _, _, _, _, _, _, _, _, _, addr⟩
  simp only [] at h6
  subst h6
  rfl

/-- C3 witness: the amended theorem applied to the concrete IPv6 map. -/
theorem from_fields_v6_panics_witness : from_fields ipv6Map = .panicked :=
  from_fields_v6_panics ipv6Map
    { id := "0x1234", model := "floor", fw_ver := 40, power := .On,
      support := ["get_power", "set_power", "get_rgb", "set_rgb"],
      bright := 34, color_mode := .ColorTemperature, ct := 0,
      rgb := { red := 10, green := 10, blue := 10 }, hue := 314, sat := 12,
      name := "room_light", addr := .v6 "::1" 8080 }
    "::1" 8080 rfl rfl

/-! ## C7 -/

/-- C7: on a record supporting `set_ct_abx`, a temperature outside
    [2700, 6500] fails with `InvalidValue` carrying `"ct"` and the decimal
    string of the temperature, with nothing written to the session; a
    temperature inside the range passes the check and the request is
    dispatched. -/
theorem set_ct_abx_range_gate (l : Light) (rid T : Nat) (tr : Transition)
    (hT : T < 65536) (hs : "set_ct_abx" ∈ l.support) :
    ((T < 2700 ∨ 6500 < T) →
      set_ct_abx l rid T tr = ⟨.err (.invalidValue "ct" (natRepr T)) l, false⟩) ∧
    (2700 ≤ T → T ≤ 6500 → (set_ct_abx l rid T tr).dispatched = true) := by
  constructor
  · intro hout
    have hc : (2700 ≤ T && T ≤ 6500) = false := by
      simp only [Bool.and_eq_false_iff, decide_eq_false_iff_not, not_le]
      omega
    simp [set_ct_abx, check_support, hs, hc]
  · intro h1 h2
    have hc : (2700 ≤ T && T ≤ 6500) = true := by
      simp only [Bool.and_eq_true, decide_eq_true_eq]
      exact ⟨h1, h2⟩
    simp [set_ct_abx, check_support, hs, hc, dispatch_dispatched]

/-- C7 witness: the gate evaluated on the test record with temperature 2699
    (rejected, nothing dispatched) and 3000 (dispatched). -/
theorem set_ct_abx_range_gate_witness :
    set_ct_abx (goodLight ["set_ct_abx"] (some (.reply okBuf))) 0 2699 .Sudden =
      ⟨.err (.invalidValue "ct" "2699")
        (goodLight ["set_ct_abx"] (some (.reply okBuf))), false⟩ ∧
    (set_ct_abx (goodLight ["set_ct_abx"] (some (.reply okBuf))) 0 3000
        .Sudden).dispatched = true := by
  constructor
  · exact (set_ct_abx_range_gate (goodLight ["set_ct_abx"] (some (.reply okBuf)))
      0 2699 .Sudden (by decide) (by decide)).1 (Or.inl (by decide))
  · exact (set_ct_abx_range_gate (goodLight ["set_ct_abx"] (some (.reply okBuf)))
      0 3000 .Sudden (by decide) (by decide)).2 (by decide) (by decide)

/-! ## C9 -/

/-- C9: on a record whose session was never opened (`init` not called), every
    command whose support check passes (with in-range arguments where a range
    check precedes dispatch) panics inside `send_req` when unwrapping the
    absent read/write halves, instead of returning an error. -/
theorem uninit_session_panics (l : Light) (rid T hu sa b : Nat) (c : Rgb)
    (p : PowerStatus) (tr : Transition) (hn : l.session = none) :
    ("set_ct_abx" ∈ l.support → 2700 ≤ T → T ≤ 6500 →
      (set_ct_abx l rid T tr).out = .panicked) ∧
    ("set_rgb" ∈ l.support → (set_rgb l rid c tr).out = .panicked) ∧
    ("set_bright" ∈ l.support → 1 ≤ b → b ≤ 100 →
      (set_bright l rid b tr).out = .panicked) ∧
    ("set_hsv" ∈ l.support → hu ≤ 359 → sa ≤ 100 →
      (set_hsv l rid hu sa tr).out = .panicked) ∧
    ("set_power" ∈ l.support → (set_power l rid p tr).out = .panicked) ∧
    ("toggle" ∈ l.support → (toggle l rid).out = .panicked) := by
  refine ⟨?_, ?_, ?_, ?_, ?_, ?_⟩
  · intro hs h1 h2
    have hc : (2700 ≤ T && T ≤ 6500) = true := by
      simp only [Bool.and_eq_true, decide_eq_true_eq]; exact ⟨h1, h2⟩
    simp [set_ct_abx, check_support, hs, hc, dispatch_out_of_none _ _ hn]
  · intro hs
    simp [set_rgb, check_support, hs, dispatch_out_of_none _ _ hn]
  · intro hs h1 h2
    have hc : (1 ≤ b && b ≤ 100) = true := by
      simp only [Bool.and_eq_true, decide_eq_true_eq]; exact ⟨h1, h2⟩
    simp [set_bright, check_support, hs, hc, dispatch_out_of_none _ _ hn]
  · intro hs h1 h2
    have hc1 : decide (hu ≤ 359) = true := by simpa using h1
    have hc2 : decide (sa ≤ 100) = true := by simpa using h2
    simp [set_hsv, hc1, hc2, dispatch_out_of_none _ _ hn]
  · intro hs
    simp [set_power, dispatch_out_of_none _ _ hn]
  · intro hs
    simp [toggle, check_support, hs, dispatch_out_of_none _ _ hn]

/-- C9 witness: all six commands on the test record parsed by `from_fields`
    (session absent) with a full support set and in-range arguments. -/
theorem uninit_session_panics_witness :
    (set_ct_abx (goodLight ["set_ct_abx", "set_rgb", "set_bright", "set_hsv",
        "set_power", "toggle"] none) 0 3000 .Sudden).out = .panicked ∧
    (set_rgb (goodLight ["set_ct_abx", "set_rgb", "set_bright", "set_hsv",
        "set_power", "toggle"] none) 0 { red := 1, green := 2, blue := 3 }
        .Sudden).out = .panicked ∧
    (set_bright (goodLight ["set_ct_abx", "set_rgb", "set_bright", "set_hsv",
        "set_power", "toggle"] none) 0 50 .Sudden).out = .panicked ∧
    (set_hsv (goodLight ["set_ct_abx", "set_rgb", "set_bright", "set_hsv",
        "set_power", "toggle"] none) 0 100 50 .Sudden).out = .panicked ∧
    (set_power (goodLight ["set_ct_abx", "set_rgb", "set_bright", "set_hsv",
        "set_power", "toggle"] none) 0 .On .Sudden).out = .panicked ∧
    (toggle (goodLight ["set_ct_abx", "set_rgb", "set_bright", "set_hsv",
        "set_power", "toggle"] none) 0).out = .panicked := by
  have h := uninit_session_panics
    (goodLight ["set_ct_abx", "set_rgb", "set_bright", "set_hsv",
      "set_power", "toggle"] none) 0 3000 100 50 50
    { red := 1, green := 2, blue := 3 } .On .Sudden rfl
  exact ⟨h.1 (by decide) (by decide) (by decide),
    h.2.1 (by decide),
    h.2.2.1 (by decide) (by decide) (by decide),
    h.2.2.2.1 (by decide) (by decide) (by decide),
    h.2.2.2.2.1 (by decide),
    h.2.2.2.2.2 (by decide)⟩

/-! ## C6 -/

theorem bool_range_split (x lo hi : Nat) :
    (lo ≤ x && x ≤ hi) = true ∨ (lo ≤ x && x ≤ hi) = false := by
  cases lo ≤ x && x ≤ hi <;> simp

theorem set_ct_abx_out_ok {l : Light} {rid T : Nat} {tr : Transition}
    {l' : Light} (h : (set_ct_abx l rid T tr).out = .ok l') :
    l' = { l with ct := T } := by
  unfold set_ct_abx at h
  cases hcs : check_support l "set_ct_abx" <;> rw [hcs] at h
  · simp at h
  · rcases bool_range_split T 2700 6500 with hc | hc
    · rw [if_neg (by simp [hc])] at h
      exact dispatch_out_ok h
    · rw [if_pos (by simp [hc])] at h
      simp at h

theorem set_ct_abx_out_err {l : Light} {rid T : Nat} {tr : Transition}
    {e : YeeError} {l' : Light}
    (h : (set_ct_abx l rid T tr).out = .err e l') : l' = l := by
  unfold set_ct_abx at h
  cases hcs : check_support l "set_ct_abx" <;> rw [hcs] at h
  · simp at h; exact h.2.symm
  · rcases bool_range_split T 2700 6500 with hc | hc
    · rw [if_neg (by simp [hc])] at h
      exact dispatch_out_err h
    · rw [if_pos (by simp [hc])] at h
      simp at h; exact h.2.symm

theorem set_rgb_out_ok {l : Light} {rid : Nat} {c : Rgb} {tr : Transition}
    {l' : Light} (h : (set_rgb l rid c tr).out = .ok l') :
    l' = { l with rgb := c } := by
  unfold set_rgb at h
  cases hcs : check_support l "set_rgb" <;> rw [hcs] at h
  · simp at h
  · exact dispatch_out_ok h

theorem set_rgb_out_err {l : Light} {rid : Nat} {c : Rgb} {tr : Transition}
    {e : YeeError} {l' : Light} (h : (set_rgb l rid c tr).out = .err e l') :
    l' = l := by
  unfold set_rgb at h
  cases hcs : check_support l "set_rgb" <;> rw [hcs] at h
  · simp at h; exact h.2.symm
  · exact dispatch_out_err h

theorem set_bright_out_ok {l : Light} {rid b : Nat} {tr : Transition}
    {l' : Light} (h : (set_bright l rid b tr).out = .ok l') :
    l' = { l with bright := b } := by
  unfold set_bright at h
  cases hcs : check_support l "set_bright" <;> rw [hcs] at h
  · simp at h
  · rcases bool_range_split b 1 100 with hc | hc
    · rw [if_neg (by simp [hc])] at h
      exact dispatch_out_ok h
    · rw [if_pos (by simp [hc])] at h
      simp at h

theorem set_bright_out_err {l : Light} {rid b : Nat} {tr : Transition}
    {e : YeeError} {l' : Light}
    (h : (set_bright l rid b tr).out = .err e l') : l' = l := by
  unfold set_bright at h
  cases hcs : check_support l "set_bright" <;> rw [hcs] at h
  · simp at h; exact h.2.symm
  · rcases bool_range_split b 1 100 with hc | hc
    · rw [if_neg (by simp [hc])] at h
      exact dispatch_out_err h
    · rw [if_pos (by simp [hc])] at h
      simp at h; exact h.2.symm

theorem set_hsv_out_ok {l : Light} {rid hu sa : Nat} {tr : Transition}
    {l' : Light} (h : (set_hsv l rid hu sa tr).out = .ok l') :
    l' = { l with hue := hu, sat := sa } := by
  unfold set_hsv at h
  cases h1 : decide (hu ≤ 359)
  · rw [if_pos (by simp [h1])] at h
    simp at h
  · cases h2 : decide (sa ≤ 100)
    · rw [if_neg (by simp [h1]), if_pos (by simp [h2])] at h
      simp at h
    · rw [if_neg (by simp [h1]), if_neg (by simp [h2])] at h
      exact dispatch_out_ok h

theorem set_hsv_out_err {l : Light} {rid hu sa : Nat} {tr : Transition}
    {e : YeeError} {l' : Light}
    (h : (set_hsv l rid hu sa tr).out = .err e l') : l' = l := by
  unfold set_hsv at h
  cases h1 : decide (hu ≤ 359)
  · rw [if_pos (by simp [h1])] at h
    simp at h; exact h.2.symm
  · cases h2 : decide (sa ≤ 100)
    · rw [if_neg (by simp [h1]), if_pos (by simp [h2])] at h
      simp at h; exact h.2.symm
    · rw [if_neg (by simp [h1]), if_neg (by simp [h2])] at h
      exact dispatch_out_err h

theorem set_power_out_ok {l : Light} {rid : Nat} {p : PowerStatus}
    {tr : Transition} {l' : Light}
    (h : (set_power l rid p tr).out = .ok l') : l' = { l with power := p } := by
  unfold set_power at h
  exact dispatch_out_ok h

theorem set_power_out_err {l : Light} {rid : Nat} {p : PowerStatus}
    {tr : Transition} {e : YeeError} {l' : Light}
    (h : (set_power l rid p tr).out = .err e l') : l' = l := by
  unfold set_power at h
  exact dispatch_out_err h

theorem toggle_out_ok {l : Light} {rid : Nat} {l' : Light}
    (h : (toggle l rid).out = .ok l') : l' = { l with power := l.power.flip } := by
  unfold toggle at h
  cases hcs : check_support l "toggle" <;> rw [hcs] at h
  · simp at h
  · exact dispatch_out_ok h

theorem toggle_out_err {l : Light} {rid : Nat} {e : YeeError} {l' : Light}
    (h : (toggle l rid).out = .err e l') : l' = l := by
  unfold toggle at h
  cases hcs : check_support l "toggle" <;> rw [hcs] at h
  · simp at h; exact h.2.symm
  · exact dispatch_out_err h

/-- C6: for every command, a successful return leaves the record equal to the
    prior record with exactly the corresponding shadow field(s) set to the
    argument (power flipped, for toggle), and any error return (support,
    range, I/O, or device error) leaves the record exactly as it was. -/
theorem shadow_consistency (l : Light) (rid T b hu sa : Nat) (c : Rgb)
    (p : PowerStatus) (tr : Transition) :
    (∀ l', (set_ct_abx l rid T tr).out = .ok l' → l' = { l with ct := T }) ∧
    (∀ e l', (set_ct_abx l rid T tr).out = .err e l' → l' = l) ∧
    (∀ l', (set_rgb l rid c tr).out = .ok l' → l' = { l with rgb := c }) ∧
    (∀ e l', (set_rgb l rid c tr).out = .err e l' → l' = l) ∧
    (∀ l', (set_bright l rid b tr).out = .ok l' → l' = { l with bright := b }) ∧
    (∀ e l', (set_bright l rid b tr).out = .err e l' → l' = l) ∧
    (∀ l', (set_hsv l rid hu sa tr).out = .ok l' →
      l' = { l with hue := hu, sat := sa }) ∧
    (∀ e l', (set_hsv l rid hu sa tr).out = .err e l' → l' = l) ∧
    (∀ l', (set_power l rid p tr).out = .ok l' → l' = { l with power := p }) ∧
    (∀ e l', (set_power l rid p tr).out = .err e l' → l' = l) ∧
    (∀ l', (toggle l rid).out = .ok l' → l' = { l with power := l.power.flip }) ∧
    (∀ e l', (toggle l rid).out = .err e l' → l' = l) :=
  ⟨fun _ h => set_ct_abx_out_ok h, fun _ _ h => set_ct_abx_out_err h,
   fun _ h => set_rgb_out_ok h, fun _ _ h => set_rgb_out_err h,
   fun _ h => set_bright_out_ok h, fun _ _ h => set_bright_out_err h,
   fun _ h => set_hsv_out_ok h, fun _ _ h => set_hsv_out_err h,
   fun _ h => set_power_out_ok h, fun _ _ h => set_power_out_err h,
   fun _ h => toggle_out_ok h, fun _ _ h => toggle_out_err h⟩

/-- C6 witness: both kinds of hypothesis are satisfiable and discharged
    concretely: a successful `set_ct_abx` on a session scripted to reply ok,
    and a failing one on a session scripted to fail with I/O. -/
theorem shadow_consistency_witness :
    ({ goodLight ["set_ct_abx"] (some (.reply okBuf)) with ct := 3000 } : Light)
        = { goodLight ["set_ct_abx"] (some (.reply okBuf)) with ct := 3000 } ∧
    goodLight ["set_ct_abx"] (some .ioErr) =
      goodLight ["set_ct_abx"] (some .ioErr) := by
  constructor
  · exact ((shadow_consistency (goodLight ["set_ct_abx"] (some (.reply okBuf)))
      0 3000 0 0 0 Rgb.empty .On .Sudden).1 _ rfl).symm
  · exact (shadow_consistency (goodLight ["set_ct_abx"] (some .ioErr))
      0 3000 0 0 0 Rgb.empty .On .Sudden).2.1 .ioError _ rfl

/-! ## C8 -/

/-- C8 counterexample: the duration of 2^64−1 milliseconds plus one
    nanosecond lies strictly above the claimed upper endpoint of
    2^64−1 milliseconds (in the derived duration order), yet
    `Transition::smooth` still returns a `Smooth` transition, because
    `as_millis` truncates the sub-millisecond part before the bound check.
    The duration is well-formed (nanos below 10^9). -/
theorem smooth_truncation_counterexample :
    Transition.smooth ⟨18446744073709551, 615000001⟩ =
      some (.Smooth ⟨18446744073709551, 615000001⟩) ∧
    Duration.ltb (Duration.from_millis U64_MAX)
      ⟨18446744073709551, 615000001⟩ = true ∧
    Duration.wf ⟨18446744073709551, 615000001⟩ := by
  refine ⟨rfl, rfl, ?_⟩
  unfold Duration.wf
  norm_num

theorem ltb_iff_lt (x y : Duration) :
    Duration.ltb x y = true ↔
      (x.secs < y.secs ∨ (x.secs = y.secs ∧ x.nanos < y.nanos)) := by
  unfold Duration.ltb
  simp [Bool.or_eq_true, Bool.and_eq_true]

theorem smooth_eq_some_iff (d : Duration) :
    Transition.smooth d = some (.Smooth d) ↔
      (Duration.ltb d (Duration.from_millis 30) = false ∧
       d.as_millis ≤ U64_MAX) := by
  unfold Transition.smooth
  cases hb : Duration.ltb d (Duration.from_millis 30)
  · cases hc : decide (U64_MAX < d.as_millis)
    · simp only [decide_eq_false_iff_not, not_lt] at hc
      simp [hc]
    · simp only [decide_eq_true_eq] at hc
      simp
      omega
  · simp

/-- C8 amended: for a well-formed duration `d`, `Transition::smooth d` is
    defined (returning `Smooth d`) iff `d` is at least 30 milliseconds and
    strictly less than 2^64 milliseconds — equivalently, iff its truncated
    whole-millisecond count is at most 2^64−1. -/
theorem smooth_iff (d : Duration) (h : d.wf) :
    Transition.smooth d = some (.Smooth d) ↔
      (Duration.ltb d (Duration.from_millis 30) = false ∧
       Duration.ltb d (Duration.from_millis 18446744073709551616) = true) := by
  rw [smooth_eq_some_iff d]
  rcases d with ⟨s, n⟩
  have h' : n < 1000000000 := h
  have h64 : Duration.from_millis 18446744073709551616 =
      ⟨18446744073709551, 616000000⟩ := rfl
  rw [h64, and_congr_right_iff]
  intro _
  rw [ltb_iff_lt]
  unfold Duration.as_millis U64_MAX
  simp only []
  omega

/-- C8 witness: the amended characterization applied to the one-second
    duration. -/
theorem smooth_iff_witness :
    Transition.smooth ⟨1, 0⟩ = some (.Smooth ⟨1, 0⟩) :=
  (smooth_iff ⟨1, 0⟩ (by norm_num [Duration.wf])).mpr (by constructor <;> rfl)

/-! ## C5 -/

theorem digitChar_toNat (d : Nat) (h : d < 10) : (digitChar d).toNat - 48 = d := by
  interval_cases d <;> decide

theorem digitChar_isDigit (d : Nat) (h : d < 10) : (digitChar d).isDigit = true := by
  interval_cases d <;> decide

theorem digitChar_ne_plus (d : Nat) (h : d < 10) : digitChar d ≠ '+' := by
  interval_cases d <;> decide

theorem natReprAux_digits (fuel : Nat) : ∀ n c, c ∈ natReprAux fuel n →
    ∃ d, d < 10 ∧ c = digitChar d := by
  induction fuel with
  | zero => intro n c hc; simp [natReprAux] at hc
  | succ fuel ih =>
    intro n c hc
    by_cases h : n < 10
    · simp [natReprAux, h] at hc
      exact ⟨n, h, hc⟩
    · simp only [natReprAux, if_neg h, List.mem_append, List.mem_singleton] at hc
      rcases hc with hc | hc
      · exact ih _ c hc
      · exact ⟨n % 10, Nat.mod_lt _ (by norm_num), hc⟩

theorem natReprAux_ne_nil (fuel n : Nat) : natReprAux (fuel + 1) n ≠ [] := by
  by_cases h : n < 10 <;> simp [natReprAux, h]

theorem natReprAux_foldl (fuel : Nat) : ∀ n acc, n < 10 ^ fuel →
    (natReprAux fuel n).foldl (fun a c => a * 10 + (c.toNat - 48)) acc
      = acc * 10 ^ (natReprAux fuel n).length + n := by
  induction fuel with
  | zero =>
    intro n acc h
    have hn : n = 0 := by omega
    subst hn
    simp [natReprAux]
  | succ fuel ih =>
    intro n acc h
    by_cases hn : n < 10
    · simp [natReprAux, hn, digitChar_toNat n hn]
    · have hdiv : n / 10 < 10 ^ fuel := by
        rw [Nat.div_lt_iff_lt_mul (by norm_num)]
        calc n < 10 ^ (fuel + 1) := h
          _ = 10 ^ fuel * 10 := by ring
      simp only [natReprAux, if_neg hn, List.foldl_append, List.length_append,
        List.foldl_cons, List.foldl_nil, List.length_cons, List.length_nil]
      rw [ih _ acc hdiv, digitChar_toNat (n % 10) (Nat.mod_lt _ (by norm_num))]
      calc (acc * 10 ^ (natReprAux fuel (n / 10)).length + n / 10) * 10 + n % 10
          = acc * (10 ^ (natReprAux fuel (n / 10)).length * 10)
            + (10 * (n / 10) + n % 10) := by ring
        _ = acc * 10 ^ ((natReprAux fuel (n / 10)).length + 1) + n := by
            rw [pow_succ]
            omega

/-- Parsing the decimal rendering of `n` recovers `n` (for `n` within the
    machine-type bound). -/
theorem parseUInt_natRepr (n bound : Nat) (h : n < bound) :
    parseUInt (natRepr n) bound = some n := by
  unfold parseUInt natRepr
  have hdata : (String.mk (natReprAux (n + 1) n)).data = natReprAux (n + 1) n := rfl
  rw [hdata]
  have hsp : stripPlus (natReprAux (n + 1) n) = natReprAux (n + 1) n := by
    cases hcs : natReprAux (n + 1) n with
    | nil => rfl
    | cons c rest =>
      obtain ⟨d, hd, hcd⟩ := natReprAux_digits (n + 1) n c (by rw [hcs]; simp)
      subst hcd
      show (if digitChar d = '+' then rest else digitChar d :: rest) =
        digitChar d :: rest
      rw [if_neg (digitChar_ne_plus d hd)]
  rw [hsp]
  have hne : ¬(natReprAux (n + 1) n).isEmpty := by
    cases hcs : natReprAux (n + 1) n with
    | nil => exact absurd hcs (natReprAux_ne_nil n n)
    | cons c rest => simp
  have hall : (natReprAux (n + 1) n).all Char.isDigit = true := by
    rw [List.all_eq_true]
    intro c hc
    obtain ⟨d, hd, hcd⟩ := natReprAux_digits (n + 1) n c hc
    subst hcd
    exact digitChar_isDigit d hd
  unfold parseDecCore
  rw [if_neg (by simp [hne, hall])]
  have hlt : n < 10 ^ (n + 1) := by
    calc n < 10 ^ n := Nat.lt_pow_self (by norm_num) n
      _ ≤ 10 ^ (n + 1) := Nat.pow_le_pow_right (by norm_num) (Nat.le_succ n)
  rw [natReprAux_foldl (n + 1) n 0 hlt]
  simp [h]

/-- C5: for all components in [0, 255], `Rgb::from_str` applied to the
    decimal string of `65536*R + 256*G + B` succeeds and yields exactly
    `(R, G, B)`, and `Rgb::get_num` of the decoded value re-yields the
    encoded integer. -/
theorem rgb_roundtrip (R G B : Nat) (hR : R ≤ 255) (hG : G ≤ 255)
    (hB : B ≤ 255) :
    Rgb.from_str (natRepr (65536 * R + 256 * G + B)) =
      .ok { red := R, green := G, blue := B } ∧
    Rgb.get_num { red := R, green := G, blue := B } =
      65536 * R + 256 * G + B := by
  constructor
  · have hv : parseUInt (natRepr (65536 * R + 256 * G + B)) 4294967296 =
        some (65536 * R + 256 * G + B) := parseUInt_natRepr _ _ (by omega)
    have hcond : (!decide (65536 * R + 256 * G + B ≤ Rgb.HEX_FFFFFF)) = false := by
      simp only [Bool.not_eq_false', decide_eq_true_eq]
      unfold Rgb.HEX_FFFFFF
      omega
    unfold Rgb.from_str
    simp only [hv, hcond, Bool.false_eq_true, if_false, Except.ok.injEq,
      Rgb.mk.injEq]
    refine ⟨?_, ?_, ?_⟩ <;> omega
  · unfold Rgb.get_num
    ring

/-- C5 witness: the round trip evaluated at (255, 0, 17). -/
theorem rgb_roundtrip_witness :
    Rgb.from_str "16711697" = .ok { red := 255, green := 0, blue := 17 } ∧
    Rgb.get_num { red := 255, green := 0, blue := 17 } = 16711697 :=
  rgb_roundtrip 255 0 17 (by norm_num) (by norm_num) (by norm_num)

/-! ## C4 -/

theorem hget_herase (m : HeaderMap) (k g : String) :
    hget (herase m k) g = if g = k then none else hget m g := by
  induction m with
  | nil => by_cases h : g = k <;> simp [herase, hget, h]
  | cons q rest ih =>
    rcases q with ⟨k', v⟩
    by_cases h1 : k' = k
    · subst h1
      by_cases h2 : g = k'
      · subst h2; simp [herase, hget, ih]
      · simp [herase, hget, ih, h2, Ne.symm h2]
    · by_cases h2 : g = k'
      · subst h2; simp [herase, hget, ih, h1]
      · simp [herase, hget, ih, h1, h2, Ne.symm h2]

theorem getFieldStr_herase (m : HeaderMap) (k g : String) :
    getFieldStr (herase m k) g =
      if g = k then .error (.fieldNotFound (stringifyLit g))
      else getFieldStr m g := by
  unfold getFieldStr
  rw [hget_herase]
  by_cases h : g = k <;> simp [h]

theorem getFieldNum_herase (m : HeaderMap) (k g : String) (bound : Nat) :
    getFieldNum (herase m k) g bound =
      if g = k then .error (.fieldNotFound (stringifyLit g))
      else getFieldNum m g bound := by
  unfold getFieldNum
  rw [hget_herase]
  by_cases h : g = k <;> simp [h]

theorem getFieldVia_herase {α : Type} (m : HeaderMap) (k g : String)
    (p : String → Except YeeError α) :
    getFieldVia (herase m k) g p =
      if g = k then .error (.fieldNotFound (stringifyLit g))
      else getFieldVia m g p := by
  unfold getFieldVia
  rw [hget_herase]
  by_cases h : g = k <;> simp [h]

theorem ebind_ok {α β : Type} (a : α) (f : α → Except YeeError β) :
    Except.bind (Except.ok a) f = f a := rfl

theorem ebind_err {α β : Type} (e : YeeError) (f : α → Except YeeError β) :
    Except.bind (Except.error e) f = Except.error e := rfl

theorem ebind_ok_inv {α β : Type} {x : Except YeeError α}
    {f : α → Except YeeError β} {b : β} (h : Except.bind x f = .ok b) :
    ∃ a, x = .ok a ∧ f a = .ok b := by
  cases x with
  | error e => rw [ebind_err] at h; exact Except.noConfusion h
  | ok a => exact ⟨a, rfl, h⟩

/-- C4 counterexample: deleting the `id` header from the well-formed test
    advertisement makes `from_fields` fail with `FieldNotFound`, but the
    carried field name is the stringified source token `"id"` including its
    quotes, which is not equal to the header's name `id`. -/
theorem fieldNotFound_is_quoted :
    from_fields (herase goodMap "id") =
      .ret (.error (.fieldNotFound "\"id\"")) ∧
    "\"id\"" ≠ ("id" : String) :=
  ⟨rfl, by decide⟩

/-- C4 amended: on any header map whose straight-line extraction succeeds,
    removing exactly one required header makes `from_fields` fail with
    `FieldNotFound` whose field name is the quoted form of that header's
    name (the `stringify!` of the source literal), not the bare name. -/
theorem missing_header_fieldNotFound (m : HeaderMap) (p : Parsed)
    (hp : parseAdvert m = .ok p) :
    ∀ f ∈ (["id", "model", "fw_ver", "power", "support", "bright",
        "color_mode", "ct", "rgb", "hue", "sat", "name",
        "Location"] : List String),
      from_fields (herase m f) =
        .ret (.error (.fieldNotFound (stringifyLit f))) := by
  unfold parseAdvert at hp
  obtain ⟨vid, h1, hp⟩ := ebind_ok_inv hp
  obtain ⟨vmodel, h2, hp⟩ := ebind_ok_inv hp
  obtain ⟨vfw, h3, hp⟩ := ebind_ok_inv hp
  obtain ⟨vpow, h4, hp⟩ := ebind_ok_inv hp
  obtain ⟨vsup, h5, hp⟩ := ebind_ok_inv hp
  obtain ⟨vbr, h6, hp⟩ := ebind_ok_inv hp
  obtain ⟨vcm, h7, hp⟩ := ebind_ok_inv hp
  obtain ⟨vct, h8, hp⟩ := ebind_ok_inv hp
  obtain ⟨vrgb, h9, hp⟩ := ebind_ok_inv hp
  obtain ⟨vhue, h10, hp⟩ := ebind_ok_inv hp
  obtain ⟨vsat, h11, hp⟩ := ebind_ok_inv hp
  obtain ⟨vname, h12, hp⟩ := ebind_ok_inv hp
  obtain ⟨vloc, h13, hp⟩ := ebind_ok_inv hp
  intro f hf
  fin_cases hf <;>
    simp [from_fields, parseAdvert, getFieldStr_herase, getFieldNum_herase,
      getFieldVia_herase, h1, h2, h3, h4, h5, h6, h7, h8, h9, h10,
      h11, h12, h13, ebind_ok, ebind_err]

/-- C4 witness: the amended statement applied to the test advertisement with
    the `model` header removed. -/
theorem missing_header_fieldNotFound_witness :
    from_fields (herase goodMap "model") =
      .ret (.error (.fieldNotFound "\"model\"")) :=
  missing_header_fieldNotFound goodMap
    { id := "0x1234", model := "floor", fw_ver := 40, power := .On,
      support := ["get_power", "set_power", "get_rgb", "set_rgb"],
      bright := 34, color_mode := .ColorTemperature, ct := 0,
      rgb := { red := 10, green := 10, blue := 10 }, hue := 314, sat := 12,
      name := "room_light", addr := .v4 ⟨127, 0, 0, 1, 13454⟩ }
    rfl "model" (by decide)

end Yee

